import Mathlib

/-!
Shallow embedding of the FASTMoney transaction/ledger subsystem.

The embedding follows the source:
  * `src/models/transactions.model.ts` (`Transaction.createTransaction`,
    `Transaction.getTransactionById`, `Transaction.updateTransaction`,
    `Transaction.getUserTransactions`, tag operations),
  * `src/models/accounts.model.ts` (`Account.deleteAccount`, `Account.getAccountById`),
  * `src/models/friends.model.ts` (`Friend.isFriend`, `Friend.sendFriendRequest`,
    `Friend.respondToFriendRequest`, `Friend.removeFriend`),
  * `schema/schema_006.sql` (`Accounts_Balance_Trigger`,
    `Accounts_Balance_Trigger_On_Transaction_Update`, `TransactionAmounts_Create_Trigger`),
  * `schema/schema_007.sql` (`Account_Delete_TransactionAmountUpdate`).

Monetary DECIMAL(19,4) values are modelled as rationals (`Rat`), ids as `Nat`,
timestamps as `Int`.  Database statements are modelled one at a time, with the
row-level triggers of the schema applied as part of each statement, exactly as
SQL Server fires them (the INSTEAD OF validation trigger, then the AFTER
balance trigger).  A thrown `StatusError` rolls the unit of work back, which the
embedding renders as `Except.error` leaving the caller's state untouched.
-/

deriving instance DecidableEq for Except

namespace FASTMoney

/-- `StatusError` from `errorHandler.middleware.ts`: a message plus an HTTP
status, defaulting to 400 at every throw site that does not pass one. -/
structure StatusError where
  message : String
  status : Nat
deriving DecidableEq

/-- Account row (`Finance.Accounts`): id, owner, name and the cached balance. -/
structure Account where
  id : Nat
  userId : Nat
  name : String
  balance : Rat
deriving DecidableEq

/-- Transaction header row (`Finance.Transactions`). -/
structure TxnHeader where
  id : Nat
  category : String
  isIncome : Bool
  includeInReports : Bool
  description : Option String
  notes : Option String
  createdOn : Int
deriving DecidableEq

/-- Split-amount row (`Finance.TransactionAmounts`). -/
structure AmountRow where
  id : Nat
  transactionId : Nat
  accountId : Option Nat
  accountName : Option String
  amountToPay : Rat
  amountPaid : Rat
deriving DecidableEq

/-- Tag row (`Finance.TransactionTags`). -/
structure TagRow where
  id : Nat
  transactionId : Nat
  tag : String
deriving DecidableEq

/-- The relational state: the four Finance tables, the `Friends.Friends`
edge list consumed by `Friend.isFriend`, and an id sequence. -/
structure DB where
  accounts : List Account
  transactions : List TxnHeader
  amounts : List AmountRow
  tags : List TagRow
  friends : List (Nat × Nat)
  nextId : Nat
deriving DecidableEq

/-- `Account.getAccountById`: unscoped lookup of an account row by id. -/
def DB.lookupAccount (db : DB) (accId : Nat) : Option Account :=
  db.accounts.find? (fun a => a.id == accId)

/-- Lookup of a transaction header by id. -/
def DB.lookupTxn (db : DB) (tid : Nat) : Option TxnHeader :=
  db.transactions.find? (fun t => t.id == tid)

/-- `Friend.isFriend(userId, friendId)`: `COUNT(*) > 0` over `Friends.Friends`
rows with `UserId = userId AND FriendId = friendId` (one direction only). -/
def DB.isFriend (db : DB) (userId friendId : Nat) : Bool :=
  db.friends.contains (userId, friendId)

/-- The sign the balance trigger applies to `AmountPaid`: positive when the
owning transaction is income, negative otherwise. -/
def signedPaid (isIncome : Bool) (p : Rat) : Rat :=
  if isIncome then p else -p

/-- `Math.abs` as used for the epsilon comparison. -/
def ratAbs (q : Rat) : Rat :=
  if q < 0 then -q else q

/-- The 0.01 tolerance of the paid/owed sum comparison. -/
def epsilon : Rat := 1 / 100

/-- Add `delta` to the balance of the account with id `accId` (the
`UPDATE Finance.Accounts SET Balance = Balance + ...` statements). -/
def applyDelta (accounts : List Account) (accId : Nat) (delta : Rat) : List Account :=
  accounts.map fun a => if a.id == accId then { a with balance := a.balance + delta } else a

/-- `IsIncome` of the transaction a row belongs to, as the balance trigger
reads it through its join on `Finance.Transactions`. -/
def txnIsIncome (db : DB) (tid : Nat) : Bool :=
  match db.lookupTxn tid with
  | some t => t.isIncome
  | none => false

/-- `deleted` side of `Accounts_Balance_Trigger` for one affected row:
subtract the signed `AmountPaid` from the referenced account. -/
def balanceTriggerDeleted (db : DB) (row : AmountRow) : DB :=
  match row.accountId with
  | some accId =>
      { db with accounts :=
          applyDelta db.accounts accId (-(signedPaid (txnIsIncome db row.transactionId) row.amountPaid)) }
  | none => db

/-- `inserted` side of `Accounts_Balance_Trigger` for one affected row:
add the signed `AmountPaid` to the referenced account. -/
def balanceTriggerInserted (db : DB) (row : AmountRow) : DB :=
  match row.accountId with
  | some accId =>
      { db with accounts :=
          applyDelta db.accounts accId (signedPaid (txnIsIncome db row.transactionId) row.amountPaid) }
  | none => db

/-- The exactly-one-of check of `TransactionAmounts_Create_Trigger`:
`AccountId`/`AccountName` must not be both null nor both set. -/
def exactlyOneAccountRef (row : AmountRow) : Bool :=
  (row.accountId.isSome && row.accountName.isNone) ||
    (row.accountId.isNone && row.accountName.isSome)

/-- The `RAISERROR` of `TransactionAmounts_Create_Trigger`. -/
def accountRefError : StatusError :=
  ⟨"Either AccountId or AccountName must be NULL, but not both.", 400⟩

/-- Message thrown when a referenced account id resolves to nothing
(a `StatusError` built without a status, hence 400). -/
def accountNotFoundMsg (accId : Nat) : String :=
  "Account with ID " ++ toString accId ++ " not found"

/-- Message thrown when a referenced account is neither the caller's nor a
friend's (again a default-status `StatusError`, hence 400). -/
def accountAccessMsg (accId : Nat) : String :=
  "You do not have access to account with ID " ++ toString accId

/-- The violation of `TransactionAmounts_Uniq_TransactionId_AccountId`
(schema_001): SQL Server raises it and the thrown driver error reaches the
caller through the generic 400 mapping of `withErrorHandling`. -/
def uniqueTxnAccountError : StatusError :=
  ⟨"Violation of UNIQUE KEY constraint TransactionAmounts_Uniq_TransactionId_AccountId", 400⟩

/-- The violation of `TransactionAmounts_FK_Accounts` (ON DELETE NO ACTION
since schema_003): SQL Server refuses the `DELETE` on `Finance.Accounts` and
the driver error reaches the caller through the generic 400 mapping. -/
def fkAccountsReferenceError : StatusError :=
  ⟨"The DELETE statement conflicted with the REFERENCE constraint TransactionAmounts_FK_Accounts", 400⟩

/-- The `UNIQUE (TransactionId, AccountId)` collision check for one candidate
row against a row set.  SQL Server unique constraints treat NULL as a value
(at most one row per transaction without an `AccountId`), so `Option`
equality is the right comparison. -/
def uniqueTxnAccountConflict (amounts : List AmountRow) (row : AmountRow) : Bool :=
  amounts.any fun s =>
    s.transactionId == row.transactionId && s.accountId == row.accountId

/-- One `INSERT INTO Finance.TransactionAmounts`: the INSTEAD OF trigger
validates the row, its inner insert then hits the
`UNIQUE (TransactionId, AccountId)` constraint, and finally the AFTER
trigger credits the referenced account. -/
def insertAmountRow (db : DB) (row : AmountRow) : Except StatusError DB :=
  if !exactlyOneAccountRef row then
    .error accountRefError
  else if uniqueTxnAccountConflict db.amounts row then
    .error uniqueTxnAccountError
  else
    .ok (balanceTriggerInserted { db with amounts := db.amounts ++ [row] } row)

/-- One `DELETE FROM Finance.TransactionAmounts WHERE Id = @amountId`:
removes the rows with that id, the AFTER trigger debiting their accounts. -/
def deleteAmountRowById (db : DB) (rowId : Nat) : DB :=
  let removed := db.amounts.filter (fun r => r.id == rowId)
  let db' := { db with amounts := db.amounts.filter (fun r => r.id != rowId) }
  removed.foldl balanceTriggerDeleted db'

/-- One `UPDATE Finance.TransactionAmounts ... WHERE Id = @amountId AND
TransactionId = @transactionId`: the INSTEAD OF trigger validates the patched
rows, its inner update then hits the `UNIQUE (TransactionId, AccountId)`
constraint against the untouched rows, and finally the AFTER trigger
re-balances (old values out, new values in). -/
def updateAmountRow (db : DB) (rowId tid : Nat) (patch : AmountRow → AmountRow) :
    Except StatusError DB :=
  let affected := db.amounts.filter (fun r => r.id == rowId && r.transactionId == tid)
  let untouched := db.amounts.filter (fun r => !(r.id == rowId && r.transactionId == tid))
  if affected.any (fun r => !exactlyOneAccountRef (patch r)) then
    .error accountRefError
  else if affected.any (fun r => uniqueTxnAccountConflict untouched (patch r)) then
    .error uniqueTxnAccountError
  else
    let newAmounts := db.amounts.map fun r =>
      if r.id == rowId && r.transactionId == tid then patch r else r
    let db1 := { db with amounts := newAmounts }
    let db2 := affected.foldl balanceTriggerDeleted db1
    .ok (affected.foldl (fun d r => balanceTriggerInserted d (patch r)) db2)

/-- `Accounts_Balance_Trigger_On_Transaction_Update`: after an update of a
transaction header, every referenced account loses the sum signed by the old
`IsIncome` and gains the sum signed by the new one. -/
def headerUpdateTrigger (db : DB) (tid : Nat) (oldInc newInc : Bool) : DB :=
  (db.amounts.filter (fun r => r.transactionId == tid)).foldl
    (fun d r =>
      match r.accountId with
      | some accId =>
          { d with accounts :=
              applyDelta d.accounts accId (signedPaid newInc r.amountPaid - signedPaid oldInc r.amountPaid) }
      | none => d)
    db

/-- Input shape of one amount entry of `createTransaction`. -/
structure NewTransactionAmount where
  accountId : Option Nat
  accountName : Option String
  amountToPay : Rat
  amountPaid : Rat
deriving DecidableEq

/-- Input shape of `createTransaction` (`INewTransaction`);
absent `tags` is the empty list. -/
structure NewTransaction where
  category : String
  isIncome : Option Bool
  includeInReports : Option Bool
  description : Option String
  notes : Option String
  amounts : List NewTransactionAmount
  tags : List String
deriving DecidableEq

/-- The zod shape validation of `createTransaction`: positive ids, non-empty
strings, non-negative decimals, at least one amount entry. -/
def createShapeOk (userId : Nat) (t : NewTransaction) : Bool :=
  (0 < userId : Bool) && t.category != "" &&
    t.description.all (fun s => s != "") && t.notes.all (fun s => s != "") &&
    !t.amounts.isEmpty &&
    t.amounts.all (fun a =>
      a.accountId.all (fun i => 0 < i) && a.accountName.all (fun s => s != "") &&
        decide (0 ≤ a.amountToPay) && decide (0 ≤ a.amountPaid)) &&
    t.tags.all (fun s => s != "")

/-- The per-amount validation loop of `createTransaction`, threading the
`hasSelfAmount` flag and the two running sums exactly as the source does.
The source accumulates the sums as JS binary64 doubles; here they are exact
rationals, which agrees with the source only away from rounding (e.g. on
integer-valued amounts): the `Math.abs(sum - sum) <= 0.01` boundary itself is
a floating-point artifact this embedding does not capture. -/
def validateAmounts (db : DB) (userId : Nat) :
    List NewTransactionAmount → Bool → Rat → Rat → Except StatusError (Bool × Rat × Rat)
  | [], hasSelf, sumPaid, sumToPay => .ok (hasSelf, sumPaid, sumToPay)
  | a :: rest, hasSelf, sumPaid, sumToPay =>
    if a.accountId.isNone && a.accountName.isNone then
      .error ⟨"Either accountId or accountName must be provided for each amount", 400⟩
    else
      match a.accountId with
      | some accId =>
        if a.accountName.isSome then
          .error ⟨"Both accountId and accountName cannot be provided for the same amount", 400⟩
        else
          match db.lookupAccount accId with
          | none => .error ⟨accountNotFoundMsg accId, 400⟩
          | some acc =>
            if acc.userId == userId then
              validateAmounts db userId rest true (sumPaid + a.amountPaid) (sumToPay + a.amountToPay)
            else if !db.isFriend acc.userId userId then
              .error ⟨accountAccessMsg accId, 400⟩
            else
              validateAmounts db userId rest hasSelf (sumPaid + a.amountPaid) (sumToPay + a.amountToPay)
      | none =>
          validateAmounts db userId rest hasSelf (sumPaid + a.amountPaid) (sumToPay + a.amountToPay)

/-- The amount-insertion loop of `createTransaction`: one insert statement per
entry, fresh ids from the sequence, collecting the inserted rows. -/
def insertNewAmounts (db : DB) (tid : Nat) :
    List NewTransactionAmount → Except StatusError (DB × List AmountRow)
  | [] => .ok (db, [])
  | a :: rest =>
    let row : AmountRow :=
      { id := db.nextId, transactionId := tid, accountId := a.accountId,
        accountName := a.accountName, amountToPay := a.amountToPay, amountPaid := a.amountPaid }
    match insertAmountRow { db with nextId := db.nextId + 1 } row with
    | .error e => .error e
    | .ok db' =>
      match insertNewAmounts db' tid rest with
      | .error e => .error e
      | .ok (db'', rows) => .ok (db'', row :: rows)

/-- The tag-insertion loop of `createTransaction` (no dedup at creation). -/
def insertTags (db : DB) (tid : Nat) : List String → DB × List TagRow
  | [] => (db, [])
  | g :: rest =>
    let row : TagRow := { id := db.nextId, transactionId := tid, tag := g }
    let (db', rows) := insertTags { db with nextId := db.nextId + 1, tags := db.tags ++ [row] } tid rest
    (db', row :: rows)

/-- The client-facing transaction shape (`ITransaction`): header plus its
split-amount rows and tags. -/
structure ITransaction where
  header : TxnHeader
  amounts : List AmountRow
  tags : List TagRow
deriving DecidableEq

/-- `Transaction.createTransaction`: shape validation, the per-amount loop, the
epsilon sum check, the self-stake check, then the atomic inserts (any error
rolls the unit of work back, i.e. yields `Except.error`). -/
def createTransaction (db : DB) (now : Int) (userId : Nat) (t : NewTransaction) :
    Except StatusError (DB × ITransaction) :=
  if !createShapeOk userId t then
    .error ⟨"Validation failed", 400⟩
  else
    match validateAmounts db userId t.amounts false 0 0 with
    | .error e => .error e
    | .ok (hasSelf, sumPaid, sumToPay) =>
      if ratAbs (sumPaid - sumToPay) > epsilon then
        .error ⟨"Sum of Amount Paid must equal the sum of Amount To Pay", 400⟩
      else if !hasSelf then
        .error ⟨"At least one amount must have accountId set to the userId", 400⟩
      else
        let tid := db.nextId
        let hdr : TxnHeader :=
          { id := tid, category := t.category, isIncome := t.isIncome.getD false,
            includeInReports := t.includeInReports.getD true,
            description := t.description, notes := t.notes, createdOn := now }
        let db1 := { db with transactions := db.transactions ++ [hdr], nextId := tid + 1 }
        match insertNewAmounts db1 tid t.amounts with
        | .error e => .error e
        | .ok (db2, rows) =>
          let (db3, tagRows) := insertTags db2 tid t.tags
          .ok (db3, { header := hdr, amounts := rows, tags := tagRows })

/-- `Transaction.hasAccessToTransaction`: the count query joining the
transaction's amount rows to `Finance.Accounts` on `AccountId`, looking for a
row whose account is owned by `userId`. -/
def hasAccessToTransaction (db : DB) (userId tid : Nat) : Bool :=
  db.amounts.any fun r =>
    r.transactionId == tid &&
      (match r.accountId with
       | some accId => (db.lookupAccount accId).any (fun a => a.userId == userId)
       | none => false)

/-- `Transaction.getTransactionById`: id validation, transitive access check
(404 on failure, conflating absence with lack of access), then the header, its
amount rows and its tags.  The source returns `null` for a missing header and
every caller immediately turns that into the same 404. -/
def getTransactionById (db : DB) (userId tid : Nat) : Except StatusError ITransaction :=
  if !((0 < userId : Bool) && (0 < tid : Bool)) then
    .error ⟨"Validation failed", 400⟩
  else if !hasAccessToTransaction db userId tid then
    .error ⟨"Transaction not found or you do not have access to it", 404⟩
  else
    match db.lookupTxn tid with
    | none => .error ⟨"Transaction not found or you do not have access to it", 404⟩
    | some hdr =>
        .ok { header := hdr,
              amounts := db.amounts.filter (fun r => r.transactionId == tid),
              tags := db.tags.filter (fun g => g.transactionId == tid) }

/-- Input shape of one amount entry of `updateTransaction`
(`IEditTransactionAmount`). -/
structure EditTransactionAmount where
  id : Option Nat
  accountId : Option Nat
  accountName : Option String
  amountToPay : Option Rat
  amountPaid : Option Rat
deriving DecidableEq

/-- Input shape of `updateTransaction` (`IEditTransaction`). -/
structure EditTransaction where
  category : Option String
  isIncome : Option Bool
  includeInReports : Option Bool
  description : Option String
  notes : Option String
  amounts : Option (List EditTransactionAmount)
deriving DecidableEq

/-- The top-level zod validation of `updateTransaction` (header fields only;
`amounts` is validated entry by entry inside the loop). -/
def editShapeOk (userId tid : Nat) (e : EditTransaction) : Bool :=
  (0 < userId : Bool) && (0 < tid : Bool) && e.category.all (fun s => s != "") &&
    e.description.all (fun s => s != "") && e.notes.all (fun s => s != "")

/-- Whether any header field was supplied
(the source's `Object.keys(validUpdates).length > 0`). -/
def hasHeaderUpdates (e : EditTransaction) : Bool :=
  e.category.isSome || e.isIncome.isSome || e.includeInReports.isSome ||
    e.description.isSome || e.notes.isSome

/-- The dynamic `UPDATE Finance.Transactions` of `updateTransaction`, followed
by `Accounts_Balance_Trigger_On_Transaction_Update`. -/
def applyHeaderUpdates (db : DB) (tid : Nat) (e : EditTransaction) : DB :=
  match db.lookupTxn tid with
  | none => db
  | some hdr =>
    let hdr' : TxnHeader :=
      { hdr with
        category := e.category.getD hdr.category,
        isIncome := e.isIncome.getD hdr.isIncome,
        includeInReports := e.includeInReports.getD hdr.includeInReports,
        description := match e.description with | some d => some d | none => hdr.description,
        notes := match e.notes with | some n => some n | none => hdr.notes }
    let db' := { db with transactions :=
      db.transactions.map fun t => if t.id == tid then hdr' else t }
    headerUpdateTrigger db' tid hdr.isIncome hdr'.isIncome

/-- The zod validation of one amount update entry. -/
def editAmountShapeOk (u : EditTransactionAmount) : Bool :=
  u.id.all (fun i => 0 < i) && u.accountId.all (fun i => 0 < i) &&
    u.accountName.all (fun s => s != "") &&
    u.amountToPay.all (fun q => decide (0 ≤ q)) && u.amountPaid.all (fun q => decide (0 ≤ q))

/-- Account resolution and access check shared by the new-row and patch paths
of the amount-update loop: NotFound-style message when the account is missing,
access message when it is neither the caller's nor a friend's; both thrown as
plain `StatusError`s with the default 400 status. -/
def checkAccountAccess (db : DB) (userId : Nat) : Option Nat → Except StatusError Unit
  | none => .ok ()
  | some accId =>
    match db.lookupAccount accId with
    | none => .error ⟨accountNotFoundMsg accId, 400⟩
    | some acc =>
      if acc.userId != userId && !db.isFriend acc.userId userId then
        .error ⟨accountAccessMsg accId, 400⟩
      else
        .ok ()

/-- How a patch entry rewrites an existing row: only the supplied fields
change (`AccountId`/`AccountName` are set, never cleared). -/
def patchRow (u : EditTransactionAmount) (r : AmountRow) : AmountRow :=
  { r with
    accountId := match u.accountId with | some a => some a | none => r.accountId,
    accountName := match u.accountName with | some n => some n | none => r.accountName,
    amountToPay := u.amountToPay.getD r.amountToPay,
    amountPaid := u.amountPaid.getD r.amountPaid }

/-- The amount-update loop of `updateTransaction`.  `mem` mirrors the in-memory
`transaction.amounts` array of the source: removals filter it and inserts push
onto it, but in-place patches do NOT write back into it, so later validation
sees patched rows at their pre-patch values.  `memHdr` is the in-memory header
snapshot read before the unit of work began; the manual balance adjustment uses
its `isIncome` flag and the row's old `accountId`/`amountPaid`. -/
def processAmountUpdates (db : DB) (userId tid : Nat) (memHdr : TxnHeader) :
    List EditTransactionAmount → List AmountRow → Except StatusError (DB × List AmountRow)
  | [], mem => .ok (db, mem)
  | u :: rest, mem =>
    if !editAmountShapeOk u then
      .error ⟨"Amount update validation failed", 400⟩
    else
      match u.id with
      | none =>
        if u.accountId.isNone && u.accountName.isNone then
          .error ⟨"Either accountId or accountName must be provided for each amount update", 400⟩
        else if u.accountId.isSome && u.accountName.isSome then
          .error ⟨"Both accountId and accountName cannot be provided for the same amount update", 400⟩
        else
          match checkAccountAccess db userId u.accountId with
          | .error e => .error e
          | .ok _ =>
            if u.amountPaid.getD 0 == 0 then
              .error ⟨"Amount paid must be provided for each new amount", 400⟩
            else if u.amountToPay.getD 0 == 0 then
              .error ⟨"Amount to pay must be provided for each new amount", 400⟩
            else
              let row : AmountRow :=
                { id := db.nextId, transactionId := tid, accountId := u.accountId,
                  accountName := u.accountName, amountToPay := u.amountToPay.getD 0,
                  amountPaid := u.amountPaid.getD 0 }
              match insertAmountRow { db with nextId := db.nextId + 1 } row with
              | .error e => .error e
              | .ok db' => processAmountUpdates db' userId tid memHdr rest (mem ++ [row])
      | some i =>
        match mem.find? (fun r => r.id == i) with
        | none =>
            .error ⟨"Transaction amount with ID " ++ toString i ++
              " not found or doesn't belong to this transaction", 400⟩
        | some row =>
          if u.accountId.isSome && u.accountName.isSome then
            .error ⟨"Both accountId and accountName cannot be provided for the same amount update", 400⟩
          else
            match checkAccountAccess db userId u.accountId with
            | .error e => .error e
            | .ok _ =>
              if (match u.amountToPay with | some q => decide (q < 0) | none => false) then
                .error ⟨"Amount to pay must be greater than or equal to 0", 400⟩
              else if (match u.amountPaid with | some p => decide (p < 0) | none => false) then
                .error ⟨"Amount paid must be greater than or equal to 0", 400⟩
              else
                -- the manual `UPDATE Finance.Accounts` balance delta of the
                -- source, using the in-memory header's `isIncome` and the
                -- row's old `accountId`/`amountPaid`
                let dbA :=
                  match u.amountPaid, row.accountId with
                  | some p, some accId =>
                    let diff := p - row.amountPaid
                    if diff != 0 then
                      { db with accounts :=
                          applyDelta db.accounts accId (if memHdr.isIncome then diff else -diff) }
                    else db
                  | _, _ => db
                if u.accountId.isSome || u.accountName.isSome ||
                    u.amountToPay.isSome || u.amountPaid.isSome then
                  match updateAmountRow dbA i tid (patchRow u) with
                  | .error e => .error e
                  | .ok db' => processAmountUpdates db' userId tid memHdr rest mem
                else
                  processAmountUpdates dbA userId tid memHdr rest mem

/-- The `DELETE FROM Finance.Transactions` of the drain path, with the
cascade deletes of the remaining amount rows and tags of that transaction. -/
def deleteTxnHeader (db : DB) (tid : Nat) : DB :=
  { db with
    transactions := db.transactions.filter (fun t => t.id != tid),
    amounts := db.amounts.filter (fun r => r.transactionId != tid),
    tags := db.tags.filter (fun g => g.transactionId != tid) }

/-- The re-read the source performs after committing (`getTransactionById`
on the committed state).  The source's re-read would throw 404 in the corner
case where the update just removed the caller's last own-account row; since
the commit stands regardless, and `Except.error` models rollback in this
embedding, the re-read is modelled as the plain lookup of the committed
transaction. -/
def reRead (db : DB) (tid : Nat) : Option ITransaction :=
  (db.lookupTxn tid).map fun hdr =>
    { header := hdr,
      amounts := db.amounts.filter (fun r => r.transactionId == tid),
      tags := db.tags.filter (fun g => g.transactionId == tid) }

/-- `Transaction.updateTransaction`: validation, access check, optional header
update, then — when `amounts` is supplied — removal of rows absent from the
list, entry-by-entry inserts/patches, the drain-to-delete branch, and the
final sum / has-accountId re-validation over the in-memory row set.  Any error
rolls the whole unit of work back (`Except.error`); `none` as the second
component is the tombstone returned when draining deleted the transaction. -/
def updateTransaction (db : DB) (userId tid : Nat) (e : EditTransaction) :
    Except StatusError (DB × Option ITransaction) :=
  if !editShapeOk userId tid e then
    .error ⟨"Validation failed", 400⟩
  else
    match getTransactionById db userId tid with
    | .error err => .error err
    | .ok txn =>
      let db1 := if hasHeaderUpdates e then applyHeaderUpdates db tid e else db
      match e.amounts with
      | none => .ok (db1, reRead db1 tid)
      | some us =>
        let toRemove := txn.amounts.filter fun r => !(us.any fun u => u.id == some r.id)
        let db2 := toRemove.foldl (fun d r => deleteAmountRowById d r.id) db1
        let mem0 := txn.amounts.filter fun r => us.any fun u => u.id == some r.id
        match processAmountUpdates db2 userId tid txn.header us mem0 with
        | .error err => .error err
        | .ok (db3, mem) =>
          if mem.isEmpty then
            if hasHeaderUpdates e then
              .error ⟨"Transaction cannot be deleted if it has updates", 400⟩
            else
              .ok (deleteTxnHeader db3 tid, none)
          else
            let sumPaid := (mem.map (fun r => r.amountPaid)).sum
            let sumToPay := (mem.map (fun r => r.amountToPay)).sum
            let isIdAmount := mem.any fun r => r.accountId.isSome
            if ratAbs (sumPaid - sumToPay) > epsilon then
              .error ⟨"Sum of Amount Paid must equal the sum of Amount To Pay", 400⟩
            else if !isIdAmount then
              .error ⟨"At least one amount must have accountId set", 400⟩
            else
              .ok (db3, reRead db3 tid)

/-- The row conversion of `Account_Delete_TransactionAmountUpdate`: a row
referencing the deleted account keeps all its fields but drops `AccountId` and
takes the deleted account's name as `AccountName`; other rows are untouched. -/
def orphanRow (accId : Nat) (name : String) (r : AmountRow) : AmountRow :=
  if r.accountId == some accId then
    { r with accountId := none, accountName := some name }
  else r

/-- `Account.deleteAccount`: id validation, the ownership check (404 when the
account is not the caller's), then the `DELETE FROM Finance.Accounts`.
`TransactionAmounts_FK_Accounts` is `ON DELETE NO ACTION` (schema_003, staged
"for Future Trigger"), so SQL Server refuses the delete whenever split-amount
rows still reference the account, *before* the `AFTER DELETE` trigger
`Account_Delete_TransactionAmountUpdate` of schema_007 could convert them;
the trigger's conversion (`orphanRow`) therefore only ever runs over states
with no referencing rows, where it is the identity. -/
def deleteAccount (db : DB) (userId accId : Nat) : Except StatusError DB :=
  if !((0 < userId : Bool) && (0 < accId : Bool)) then
    .error ⟨"Validation failed", 400⟩
  else if !(db.accounts.any fun a => a.id == accId && a.userId == userId) then
    .error ⟨"Account not found or does not belong to user", 404⟩
  else
    match db.lookupAccount accId with
    | none => .error ⟨"Account not found or does not belong to user", 404⟩
    | some acc =>
      if db.amounts.any fun r => r.accountId == some accId then
        .error fkAccountsReferenceError
      else
        let remaining := db.accounts.filter fun a => !(a.id == accId && a.userId == userId)
        let orphaned := db.amounts.map (orphanRow accId acc.name)
        .ok { db with accounts := remaining, amounts := orphaned }

/-- `Transaction.addTransactionTag`: access check, the case-insensitive
duplicate check against the transaction's existing tags, then the insert. -/
def addTransactionTag (db : DB) (userId tid : Nat) (g : String) :
    Except StatusError (DB × TagRow) :=
  if !((0 < userId : Bool) && (0 < tid : Bool) && g != "") then
    .error ⟨"Validation failed", 400⟩
  else
    match getTransactionById db userId tid with
    | .error err => .error err
    | .ok txn =>
      if txn.tags.any (fun t => t.tag.toLower == g.toLower) then
        .error ⟨"Tag already exists for this transaction", 400⟩
      else
        let row : TagRow := { id := db.nextId, transactionId := tid, tag := g }
        .ok ({ db with tags := db.tags ++ [row], nextId := db.nextId + 1 }, row)

/-- `Transaction.removeTransactionTag`: access check, membership check (404),
then the delete scoped to the transaction. -/
def removeTransactionTag (db : DB) (userId tid tagId : Nat) : Except StatusError DB :=
  if !((0 < userId : Bool) && (0 < tid : Bool) && (0 < tagId : Bool)) then
    .error ⟨"Validation failed", 400⟩
  else
    match getTransactionById db userId tid with
    | .error err => .error err
    | .ok txn =>
      if !(txn.tags.any fun t => t.id == tagId) then
        .error ⟨"Tag not found for this transaction", 404⟩
      else
        .ok { db with tags :=
          db.tags.filter fun t => !(t.id == tagId && t.transactionId == tid) }

/-! ## Friend subsystem (`friends.model.ts`)

State of the `Friends` schema: the `Friends.Friends` edge rows and the
`Friends.FriendRequests` rows, each stored as `(UserId, FriendId)` pairs. -/

/-- The two `Friends` tables. -/
structure FriendDB where
  friends : List (Nat × Nat)
  requests : List (Nat × Nat)
deriving DecidableEq

/-- `Friend.isFriend(userId, friendId)`: `COUNT(*) > 0` over rows with
`UserId = userId AND FriendId = friendId`. -/
def FriendDB.isFriend (s : FriendDB) (userId friendId : Nat) : Bool :=
  s.friends.contains (userId, friendId)

/-- `Friend.sendFriendRequest` with the target already resolved to an id:
self-check, already-friends check (one direction), pending-request check
(both directions), then the insert of the `(sender, receiver)` request row. -/
def sendFriendRequest (s : FriendDB) (userId friendId : Nat) : Except StatusError FriendDB :=
  if friendId == userId then
    .error ⟨"You cannot send a friend request to yourself", 400⟩
  else if s.isFriend userId friendId then
    .error ⟨"You are already friends with this user", 400⟩
  else if s.requests.contains (userId, friendId) || s.requests.contains (friendId, userId) then
    .error ⟨"A friend request already exists between you and this user", 400⟩
  else
    .ok { s with requests := s.requests ++ [(userId, friendId)] }

/-- `Friend.respondToFriendRequest`: requires the pending row
`(friendId, userId)`; on accept it runs the single
`INSERT INTO Friends.Friends (UserId, FriendId) VALUES (@userId, @friendId)`
statement of the source and deletes the request; on reject it only deletes
the request. -/
def respondToFriendRequest (s : FriendDB) (userId friendId : Nat) (accept : Bool) :
    Except StatusError FriendDB :=
  if !(s.requests.contains (friendId, userId)) then
    .error ⟨"Friend request not found", 404⟩
  else if accept then
    .ok { friends := s.friends ++ [(userId, friendId)],
          requests := s.requests.filter fun p => p != (friendId, userId) }
  else
    .ok { s with requests := s.requests.filter fun p => p != (friendId, userId) }

/-- `Friend.removeFriend`: requires `isFriend userId friendId`, then deletes
the edge in both directions. -/
def removeFriend (s : FriendDB) (userId friendId : Nat) : Except StatusError FriendDB :=
  if !(s.isFriend userId friendId) then
    .error ⟨"Friend not found", 404⟩
  else
    .ok { s with friends :=
      s.friends.filter fun p => p != (userId, friendId) && p != (friendId, userId) }

/-- States of the friend store reachable from the empty store through
successful send/accept/reject/remove operations. -/
inductive FriendReachable : FriendDB → Prop where
  | init : FriendReachable ⟨[], []⟩
  | send {s s' : FriendDB} {u f : Nat} :
      FriendReachable s → sendFriendRequest s u f = .ok s' → FriendReachable s'
  | respond {s s' : FriendDB} {u f : Nat} {a : Bool} :
      FriendReachable s → respondToFriendRequest s u f a = .ok s' → FriendReachable s'
  | remove {s s' : FriendDB} {u f : Nat} :
      FriendReachable s → removeFriend s u f = .ok s' → FriendReachable s'

/-! ## Query path (`Transaction.getUserTransactions`) -/

/-- Filter input (`ITransactionFilters`); an absent `tags` array is the empty
list, which the source treats the same way. -/
structure TransactionFilters where
  page : Option Nat
  limit : Option Nat
  startDate : Option Int
  endDate : Option Int
  category : Option String
  tags : List String
  accountId : Option Nat
deriving DecidableEq

/-- Result shape (`ITransactionList`). -/
structure ITransactionList where
  page : Nat
  limit : Nat
  total : Nat
  transactions : List ITransaction
deriving DecidableEq

/-- The zod validation of `getUserTransactions`. -/
def filtersShapeOk (userId : Nat) (f : TransactionFilters) : Bool :=
  (0 < userId : Bool) && f.page.all (fun p => 0 < p) && f.limit.all (fun l => 0 < l) &&
    f.category.all (fun s => s != "") && f.tags.all (fun s => s != "") &&
    f.accountId.all (fun i => 0 < i)

/-- The tag values of a transaction's tag rows. -/
def tagsOfTxn (db : DB) (tid : Nat) : List String :=
  (db.tags.filter fun g => g.transactionId == tid).map fun g => g.tag

/-- The tag subquery of `getUserTransactions`: the transaction's tag values
that appear in the supplied list, counted distinctly, must number exactly
`tags.length` (`HAVING COUNT(DISTINCT Tag) = @tagCount`). -/
def tagFilterOk (db : DB) (tags : List String) (tid : Nat) : Bool :=
  ((tagsOfTxn db tid).filter fun g => tags.contains g).dedup.length == tags.length

/-- The `WHERE` clause of the count and select queries of
`getUserTransactions`, per candidate transaction: an amount row of the
transaction joined to an account must satisfy `a.UserId = @userId` and — when
the `accountId` filter is supplied — `ta.AccountId = @accountId` on that same
joined row; plus the date, category and tag conditions. -/
def txnMatchesQuery (db : DB) (userId : Nat) (f : TransactionFilters) (t : TxnHeader) : Bool :=
  (db.amounts.any fun r =>
    r.transactionId == t.id &&
      (match r.accountId with
       | some accId =>
         (db.lookupAccount accId).any (fun a => a.userId == userId) &&
           (match f.accountId with | some want => accId == want | none => true)
       | none => false)) &&
  (match f.startDate with | some s => decide (s ≤ t.createdOn) | none => true) &&
  (match f.endDate with | some d => decide (t.createdOn ≤ d) | none => true) &&
  (match f.category with | some c => t.category == c | none => true) &&
  (f.tags.isEmpty || tagFilterOk db f.tags t.id)

/-- Descending insertion by `CreatedOn`. -/
def insertDesc (t : TxnHeader) : List TxnHeader → List TxnHeader
  | [] => [t]
  | h :: rest => if h.createdOn < t.createdOn then t :: h :: rest else h :: insertDesc t rest

/-- `ORDER BY t.CreatedOn DESC` rendered as a deterministic insertion sort
(the order among equal timestamps is unspecified in SQL). -/
def sortByCreatedOnDesc : List TxnHeader → List TxnHeader
  | [] => []
  | h :: rest => insertDesc h (sortByCreatedOnDesc rest)

/-- `Transaction.getUserTransactions`: validation, defaults `page=1` and
`limit=20`, the count query over the filter predicate, then the paginated
select (`OFFSET (page-1)*limit ROWS FETCH NEXT limit ROWS ONLY`) each of whose
ids is re-read through `getTransactionById`, skipping misses. -/
def getUserTransactions (db : DB) (userId : Nat) (f : TransactionFilters) :
    Except StatusError ITransactionList :=
  if !filtersShapeOk userId f then
    .error ⟨"Validation failed", 400⟩
  else
    let page := f.page.getD 1
    let limit := f.limit.getD 20
    let matching := (sortByCreatedOnDesc db.transactions).filter (txnMatchesQuery db userId f)
    let pageTxns := (matching.drop ((page - 1) * limit)).take limit
    .ok { page := page, limit := limit, total := matching.length,
          transactions := pageTxns.filterMap fun t => (getTransactionById db userId t.id).toOption }

/-! ## Derived notions used by the claims -/

/-- The signed sum of `amountPaid` over all split-amount rows currently
referencing an account, the sign given by each owning transaction's
`isIncome` flag — the quantity the spec says every balance must equal. -/
def signedSum (db : DB) (accId : Nat) : Rat :=
  ((db.amounts.filter fun r => r.accountId == some accId).map
    fun r => signedPaid (txnIsIncome db r.transactionId) r.amountPaid).sum

/-- The ledger/balance invariant of the spec: every account's balance equals
its signed split-amount sum. -/
def balanceInvariant (db : DB) : Bool :=
  db.accounts.all fun a => a.balance == signedSum db a.id

/-- Balance of an account in a state, when the account exists. -/
def accountBalance (db : DB) (accId : Nat) : Option Rat :=
  (db.lookupAccount accId).map fun a => a.balance

/-- The paid/owed sum condition over the split-amount rows a transaction
currently has in the store. -/
def txnSumsOk (db : DB) (tid : Nat) : Bool :=
  let rows := db.amounts.filter fun r => r.transactionId == tid
  ratAbs ((rows.map fun r => r.amountPaid).sum - (rows.map fun r => r.amountToPay).sum) ≤ epsilon

/-- Whether a transaction is active (has at least one split-amount row). -/
def txnActive (db : DB) (tid : Nat) : Bool :=
  db.amounts.any fun r => r.transactionId == tid

/-- The committed state of an update, or the unchanged input state when the
operation rolled back. -/
def updResultDB (db : DB) (userId tid : Nat) (e : EditTransaction) : DB :=
  match updateTransaction db userId tid e with
  | .ok (d, _) => d
  | .error _ => db

/-! ## Concrete scenario shared by the balance-engine claims

One user (id 1) owning account 1 with balance 50, one income transaction
(id 10) whose single split-amount row (id 100) says `amountToPay = 50`,
`amountPaid = 50`.  The balance equals the signed sum, so the state is exactly
what a successful create leaves behind.  The edit patches the row's
`amountPaid` from 50 to 70. -/

/-- Initial state for the balance-engine scenario. -/
def exUpdDb : DB :=
  { accounts := [{ id := 1, userId := 1, name := "Main", balance := 50 }],
    transactions := [{ id := 10, category := "food", isIncome := true,
                       includeInReports := true, description := none, notes := none,
                       createdOn := 0 }],
    amounts := [{ id := 100, transactionId := 10, accountId := some 1,
                  accountName := none, amountToPay := 50, amountPaid := 50 }],
    tags := [], friends := [], nextId := 200 }

/-- The edit patching row 100's `amountPaid` from 50 to 70. -/
def exUpdEdit : EditTransaction :=
  { category := none, isIncome := none, includeInReports := none,
    description := none, notes := none,
    amounts := some [{ id := some 100, accountId := none, accountName := none,
                       amountToPay := none, amountPaid := some 70 }] }

/-- Header of the drain-to-delete example transaction. -/
def exDrainHdr : TxnHeader :=
  { id := 10, category := "misc", isIncome := false, includeInReports := true,
    description := none, notes := none, createdOn := 5 }

/-- State for the drain-to-delete example: one account, one expense
transaction with a single row. -/
def exDrainDb : DB :=
  { accounts := [{ id := 1, userId := 1, name := "Main", balance := -30 }],
    transactions := [exDrainHdr],
    amounts := [{ id := 100, transactionId := 10, accountId := some 1,
                  accountName := none, amountToPay := 30, amountPaid := 30 }],
    tags := [], friends := [], nextId := 200 }

/-- The drain edit: `amounts` set to the empty list, no header fields. -/
def exDrainEdit : EditTransaction :=
  { category := none, isIncome := none, includeInReports := none,
    description := none, notes := none, amounts := some [] }

/-- State for the error-classification example: account 5 belongs to user 2,
who is not a friend of caller 1; account 9 does not exist. -/
def exC6Db : DB :=
  { accounts := [{ id := 5, userId := 2, name := "Other", balance := 0 }],
    transactions := [], amounts := [], tags := [], friends := [], nextId := 60 }

/-- The single entry of the missing-account request. -/
def exC6MissingAmt : NewTransactionAmount :=
  { accountId := some 9, accountName := none, amountToPay := 1, amountPaid := 1 }

/-- Create request referencing the missing account 9. -/
def exC6ReqMissing : NewTransaction :=
  { category := "food", isIncome := none, includeInReports := none,
    description := none, notes := none, amounts := [exC6MissingAmt], tags := [] }

/-- Create request referencing the stranger's account 5. -/
def exC6ReqStranger : NewTransaction :=
  { category := "food", isIncome := none, includeInReports := none,
    description := none, notes := none,
    amounts := [{ accountId := some 5, accountName := none, amountToPay := 1, amountPaid := 1 }],
    tags := [] }

/-- Account used by the C8 scenario. -/
def exC8Acc : Account := { id := 3, userId := 1, name := "Savings", balance := 25 }

/-- State for the C8 scenario: account 3 with two split-amount rows pointing
at it (one in each of two transactions, respecting the
`UNIQUE (TransactionId, AccountId)` constraint) and one free-text row. -/
def exC8Db : DB :=
  { accounts := [exC8Acc],
    transactions := [{ id := 10, category := "food", isIncome := false,
                       includeInReports := true, description := none, notes := none,
                       createdOn := 0 },
                     { id := 11, category := "rent", isIncome := false,
                       includeInReports := true, description := none, notes := none,
                       createdOn := 1 }],
    amounts := [{ id := 100, transactionId := 10, accountId := some 3,
                  accountName := none, amountToPay := 10, amountPaid := 10 },
                { id := 101, transactionId := 11, accountId := some 3,
                  accountName := none, amountToPay := 15, amountPaid := 15 },
                { id := 102, transactionId := 10, accountId := none,
                  accountName := some "bob", amountToPay := 10, amountPaid := 10 }],
    tags := [], friends := [], nextId := 400 }

/-! ## C9: symmetry of the friend capability check -/

/-- The friend store reached by: user 2 sends user 1 a request, user 1
accepts.  The accept path inserts only the single `(1, 2)` edge. -/
def exFriendState : FriendDB := ⟨[(1, 2)], []⟩

/-! ## C10: new rows via update require strictly positive amounts -/

/-- State for the C10 examples: account 1 (user 1), expense transaction 10
with one row (id 100) of amountToPay 5, amountPaid 5. -/
def exC10Db : DB :=
  { accounts := [{ id := 1, userId := 1, name := "Main", balance := -5 }],
    transactions := [{ id := 10, category := "food", isIncome := false,
                       includeInReports := true, description := none, notes := none,
                       createdOn := 0 }],
    amounts := [{ id := 100, transactionId := 10, accountId := some 1,
                  accountName := none, amountToPay := 5, amountPaid := 5 }],
    tags := [], friends := [], nextId := 300 }

/-- Create request with a zero-valued row, which create accepts. -/
def exC10CreateReq : NewTransaction :=
  { category := "food", isIncome := none, includeInReports := none,
    description := none, notes := none,
    amounts := [{ accountId := some 1, accountName := none, amountToPay := 0, amountPaid := 0 }],
    tags := [] }

/-- Update patching existing row 100's `amountPaid` to zero, which update
accepts. -/
def exC10PatchEdit : EditTransaction :=
  { category := none, isIncome := none, includeInReports := none,
    description := none, notes := none,
    amounts := some [{ id := some 100, accountId := none, accountName := none,
                       amountToPay := none, amountPaid := some 0 }] }

/-- The offending new entry: no id, `amountPaid = 0`. -/
def exC10BadEntry : EditTransactionAmount :=
  { id := none, accountId := some 1, accountName := none,
    amountToPay := some 5, amountPaid := some 0 }

/-- Amount list of the rejected update: keep row 100 untouched, insert the
offending new entry. -/
def exC10BadList : List EditTransactionAmount :=
  [{ id := some 100, accountId := none, accountName := none,
     amountToPay := none, amountPaid := none },
   exC10BadEntry]

/-- Update inserting a new row whose `amountPaid` is zero, which update
rejects. -/
def exC10BadEdit : EditTransaction :=
  { category := none, isIncome := none, includeInReports := none,
    description := none, notes := none, amounts := some exC10BadList }

/-! ## C7: the query path against the claim's description -/

/-- Whether a split-amount row belongs to an account owned by `userId`. -/
def rowOwnedBy (db : DB) (userId : Nat) (r : AmountRow) : Bool :=
  match r.accountId with
  | some accId => (db.lookupAccount accId).any fun a => a.userId == userId
  | none => false

/-- The membership predicate of the claim C7 as stated: at least one row
owned by the querying user, and — independently — when `accountId` is
supplied, at least one row pointing at that account; dates inclusive, exact
category, all listed tags carried. -/
def claimMatchesC7 (db : DB) (userId : Nat) (f : TransactionFilters) (t : TxnHeader) : Bool :=
  (db.amounts.any fun r => r.transactionId == t.id && rowOwnedBy db userId r) &&
  (match f.accountId with
   | some want => db.amounts.any fun r => r.transactionId == t.id && r.accountId == some want
   | none => true) &&
  (match f.startDate with | some s => decide (s ≤ t.createdOn) | none => true) &&
  (match f.endDate with | some d => decide (t.createdOn ≤ d) | none => true) &&
  (match f.category with | some c => t.category == c | none => true) &&
  (f.tags.all fun g => (tagsOfTxn db t.id).contains g)

/-- The membership predicate the code actually implements, written from the
amended claim: when `accountId` is supplied, one and the same row must be
owned by the querying user *and* point at the filtered account (so filtering
by a friend's account yields nothing); dates inclusive, exact category; the
tag filter requires the transaction to carry every listed tag and the listed
tags to be pairwise distinct — a list containing a repeated tag matches no
transaction, because `HAVING COUNT(DISTINCT Tag) = @tagCount` can never reach
the list's length. -/
def specMatchesAmended (db : DB) (userId : Nat) (f : TransactionFilters) (t : TxnHeader) : Bool :=
  (match f.accountId with
   | some want => db.amounts.any fun r =>
       (r.transactionId == t.id && rowOwnedBy db userId r) && r.accountId == some want
   | none => db.amounts.any fun r => r.transactionId == t.id && rowOwnedBy db userId r) &&
  (match f.startDate with | some s => decide (s ≤ t.createdOn) | none => true) &&
  (match f.endDate with | some d => decide (t.createdOn ≤ d) | none => true) &&
  (match f.category with | some c => t.category == c | none => true) &&
  (decide f.tags.Nodup && f.tags.all fun g => (tagsOfTxn db t.id).contains g)

/-- Header of the C7 counterexample transaction. -/
def exC7Txn : TxnHeader :=
  { id := 20, category := "food", isIncome := false, includeInReports := true,
    description := none, notes := none, createdOn := 3 }

/-- State for the C7 counterexample: caller 1 owns account 1, friend 2 owns
account 2, transaction 20 has one row on each. -/
def exC7Db : DB :=
  { accounts := [{ id := 1, userId := 1, name := "Mine", balance := -10 },
                 { id := 2, userId := 2, name := "Theirs", balance := -10 }],
    transactions := [exC7Txn],
    amounts := [{ id := 200, transactionId := 20, accountId := some 1,
                  accountName := none, amountToPay := 10, amountPaid := 10 },
                { id := 201, transactionId := 20, accountId := some 2,
                  accountName := none, amountToPay := 10, amountPaid := 10 }],
    tags := [], friends := [(2, 1), (1, 2)], nextId := 500 }

/-- Filter on the friend's account 2. -/
def exC7Filters : TransactionFilters :=
  { page := none, limit := none, startDate := none, endDate := none,
    category := none, tags := [], accountId := some 2 }

/-- The C7 state with transaction 20 additionally carrying the tag "food". -/
def exC7TagDb : DB :=
  { accounts := [{ id := 1, userId := 1, name := "Mine", balance := -10 },
                 { id := 2, userId := 2, name := "Theirs", balance := -10 }],
    transactions := [exC7Txn],
    amounts := [{ id := 200, transactionId := 20, accountId := some 1,
                  accountName := none, amountToPay := 10, amountPaid := 10 },
                { id := 201, transactionId := 20, accountId := some 2,
                  accountName := none, amountToPay := 10, amountPaid := 10 }],
    tags := [{ id := 300, transactionId := 20, tag := "food" }],
    friends := [(2, 1), (1, 2)], nextId := 500 }

/-- Filters listing the carried tag "food" twice: the duplicated list makes
the `COUNT(DISTINCT Tag) = @tagCount` condition unsatisfiable. -/
def exC7DupTagFilters : TransactionFilters :=
  { page := none, limit := none, startDate := none, endDate := none,
    category := none, tags := ["food", "food"], accountId := none }

/-- The descending order on headers: later list entries have no larger
`createdOn`. -/
def descOn (a b : TxnHeader) : Prop := b.createdOn ≤ a.createdOn


/-! ## Claim theorems and supporting lemmas -/

/-! ## Claim theorems -/

/-- C1: the claim says every account's balance equals the signed sum of the
split-amount rows referencing it after every core operation.  The code breaks
it: starting from a state where the invariant holds, patching a row's
`amountPaid` from 50 to 70 through `updateTransaction` succeeds but leaves the
account at balance 90 while the signed sum of its rows is 70, because the
model applies the delta manually on top of the balance trigger's own
adjustment. -/
theorem c1_balance_diverges_from_signed_sum :
    balanceInvariant exUpdDb = true ∧
    (updateTransaction exUpdDb 1 10 exUpdEdit).isOk = true ∧
    balanceInvariant (updResultDB exUpdDb 1 10 exUpdEdit) = false ∧
    accountBalance (updResultDB exUpdDb 1 10 exUpdEdit) 1 = some 90 ∧
    signedSum (updResultDB exUpdDb 1 10 exUpdEdit) 1 = 70 := by
  with_unfolding_all decide

/-- C2: the claim says updating a row's `amountPaid` from 50 to 70 on an
income transaction increases the referenced account's balance by exactly 20.
The code applies the delta twice — once in `updateTransaction`'s manual
`UPDATE Finance.Accounts` and once through `Accounts_Balance_Trigger` firing
on the row update — so the balance rises from 50 to 90, a change of 40. -/
theorem c2_paid_delta_double_applied :
    (updateTransaction exUpdDb 1 10 exUpdEdit).isOk = true ∧
    accountBalance exUpdDb 1 = some 50 ∧
    accountBalance (updResultDB exUpdDb 1 10 exUpdEdit) 1 = some 90 := by
  with_unfolding_all decide

/-- C3: the claim says update re-validates `Σ amountToPay == Σ amountPaid`
against the new row set and rolls back on violation.  The code validates the
in-memory row objects, which are never written back when a row is patched in
place, so patching a row's `amountPaid` from 50 to 70 (leaving
`amountToPay = 50`) passes the check against the stale values and commits an
active transaction whose stored rows violate the sum invariant. -/
theorem c3_sum_revalidation_uses_stale_rows :
    txnSumsOk exUpdDb 10 = true ∧
    (updateTransaction exUpdDb 1 10 exUpdEdit).isOk = true ∧
    txnActive (updResultDB exUpdDb 1 10 exUpdEdit) 10 = true ∧
    txnSumsOk (updResultDB exUpdDb 1 10 exUpdEdit) 10 = false := by
  with_unfolding_all decide

/-- C5: supplying an empty `amounts` list to `updateTransaction` (the only way
an update leaves zero split-amount rows) deletes the transaction header and
every row of the transaction and returns the `none` tombstone when no header
field was supplied in the same call, and is rejected with the
drain-with-updates error when any header field was supplied. -/
theorem c5_drain_to_delete
    (db : DB) (userId tid : Nat) (e : EditTransaction) (hdr : TxnHeader)
    (hAmts : e.amounts = some [])
    (hShape : editShapeOk userId tid e = true)
    (hAcc : hasAccessToTransaction db userId tid = true)
    (hHdr : db.lookupTxn tid = some hdr) :
    (hasHeaderUpdates e = false →
      ∃ db', updateTransaction db userId tid e = .ok (db', none) ∧
        (db'.transactions.all fun t => t.id != tid) = true ∧
        (db'.amounts.all fun r => r.transactionId != tid) = true) ∧
    (hasHeaderUpdates e = true →
      updateTransaction db userId tid e =
        .error ⟨"Transaction cannot be deleted if it has updates", 400⟩) := by
  have hIds : (decide (0 < userId) && decide (0 < tid)) = true := by
    simp only [editShapeOk, Bool.and_eq_true] at hShape
    simp [hShape.1.1.1.1, hShape.1.1.1.2]
  have hGet : getTransactionById db userId tid =
      .ok { header := hdr,
            amounts := db.amounts.filter (fun r => r.transactionId == tid),
            tags := db.tags.filter (fun g => g.transactionId == tid) } := by
    simp only [getTransactionById, hIds, hAcc, hHdr, Bool.not_true, Bool.false_eq_true,
      if_false]
  constructor
  · intro hNoHdr
    refine ⟨deleteTxnHeader ((db.amounts.filter fun r => r.transactionId == tid).foldl
        (fun d r => deleteAmountRowById d r.id) db) tid, ?_, ?_, ?_⟩
    · simp [updateTransaction, hShape, hGet, hNoHdr, hAmts, processAmountUpdates]
    · simp only [deleteTxnHeader, List.all_eq_true, List.mem_filter]
      exact fun t ht => ht.2
    · simp only [deleteTxnHeader, List.all_eq_true, List.mem_filter]
      exact fun r hr => hr.2
  · intro hHdrUpd
    simp [updateTransaction, hShape, hGet, hHdrUpd, hAmts, processAmountUpdates]

/-- C5 witness: the drain edit on the example state deletes transaction 10 and
its rows and returns the tombstone. -/
theorem c5_drain_to_delete_witness :
    exDrainEdit.amounts = some [] ∧ editShapeOk 1 10 exDrainEdit = true ∧
    hasAccessToTransaction exDrainDb 1 10 = true ∧
    exDrainDb.lookupTxn 10 = some exDrainHdr ∧
    (∃ db', updateTransaction exDrainDb 1 10 exDrainEdit = .ok (db', none) ∧
      (db'.transactions.all fun t => t.id != 10) = true ∧
      (db'.amounts.all fun r => r.transactionId != 10) = true) :=
  ⟨rfl, by with_unfolding_all decide, by with_unfolding_all decide,
   by with_unfolding_all decide,
   (c5_drain_to_delete exDrainDb 1 10 exDrainEdit exDrainHdr rfl
      (by with_unfolding_all decide) (by with_unfolding_all decide)
      (by with_unfolding_all decide)).1 rfl⟩

/-- C6 counterexample: the claim says the two failures carry distinct
NotFound/Forbidden classifications.  In the code both are `StatusError`s built
without a status, so both carry 400 — identical classifications, neither the
404 this codebase uses for NotFound nor the 403 it uses for Forbidden; only
the messages differ. -/
theorem c6_error_statuses_not_distinct :
    createTransaction exC6Db 0 1 exC6ReqMissing = .error ⟨accountNotFoundMsg 9, 400⟩ ∧
    createTransaction exC6Db 0 1 exC6ReqStranger = .error ⟨accountAccessMsg 5, 400⟩ ∧
    (⟨accountNotFoundMsg 9, 400⟩ : StatusError).status =
      (⟨accountAccessMsg 5, 400⟩ : StatusError).status ∧
    (400 : Nat) ≠ 404 ∧ (400 : Nat) ≠ 403 := by
  with_unfolding_all decide

/-- C6 amended: during per-amount validation on create, a supplied
`accountId` that resolves to nothing fails with the account-not-found message
and a supplied `accountId` owned by a non-friend stranger fails with the
no-access message; the two cases are distinguished by message only, both
carrying the default status 400. -/
theorem c6_account_resolution_errors
    (db : DB) (now : Int) (userId : Nat) (t : NewTransaction)
    (a : NewTransactionAmount) (rest : List NewTransactionAmount) (accId : Nat)
    (hAmts : t.amounts = a :: rest)
    (hShape : createShapeOk userId t = true)
    (hSome : a.accountId = some accId)
    (hNone : a.accountName = none) :
    (db.lookupAccount accId = none →
      createTransaction db now userId t = .error ⟨accountNotFoundMsg accId, 400⟩) ∧
    (∀ acc : Account, db.lookupAccount accId = some acc → (acc.userId == userId) = false →
      db.isFriend acc.userId userId = false →
      createTransaction db now userId t = .error ⟨accountAccessMsg accId, 400⟩) := by
  constructor
  · intro hMiss
    unfold createTransaction
    rw [hShape]
    simp only [Bool.not_true, Bool.false_eq_true, if_false, hAmts, validateAmounts,
      hSome, hNone]
    simp [hMiss]
  · intro acc hAcc hOwn hFriend
    unfold createTransaction
    rw [hShape]
    simp only [Bool.not_true, Bool.false_eq_true, if_false, hAmts, validateAmounts,
      hSome, hNone]
    simp [hAcc, hOwn, hFriend]

/-- C6 witness: instantiating the amended theorem on the example state for
both the missing account and the stranger's account. -/
theorem c6_account_resolution_errors_witness :
    exC6ReqMissing.amounts = [exC6MissingAmt] ∧
    createShapeOk 1 exC6ReqMissing = true ∧
    exC6Db.lookupAccount 9 = none ∧
    createTransaction exC6Db 0 1 exC6ReqMissing = .error ⟨accountNotFoundMsg 9, 400⟩ :=
  ⟨rfl, by with_unfolding_all decide, by with_unfolding_all decide,
   (c6_account_resolution_errors exC6Db 0 1 exC6ReqMissing exC6MissingAmt [] 9 rfl
      (by with_unfolding_all decide) rfl rfl).1 (by with_unfolding_all decide)⟩

/-! ## C8: account deletion converts referencing rows to free-text rows -/

/-- C8: the claim says account deletion converts referencing rows to
free-text rows inside the delete operation.  With
`TransactionAmounts_FK_Accounts` being `ON DELETE NO ACTION` and the
conversion trigger being `AFTER DELETE`, the `DELETE FROM Finance.Accounts`
is refused by the reference constraint whenever such rows exist, before the
trigger could run: deleting account 3, referenced by two split-amount rows,
fails outright and no row is converted. -/
theorem c8_account_delete_blocked_by_fk :
    (exC8Db.amounts.filter fun r => r.accountId == some 3).length = 2 ∧
    deleteAccount exC8Db 1 3 = .error fkAccountsReferenceError := by
  with_unfolding_all decide

/-- C9: the claim says `isFriend` is symmetric in every reachable state.  In
the state reached by user 2 sending a request and user 1 accepting it, the
single inserted `Friends` row makes `isFriend 1 2` true but `isFriend 2 1`
false — the accept handler's comment promises a bidirectional edge, its single
`INSERT` creates only one direction. -/
theorem c9_is_friend_not_symmetric :
    FriendReachable exFriendState ∧
    exFriendState.isFriend 1 2 = true ∧
    exFriendState.isFriend 2 1 = false := by
  refine ⟨?_, by decide, by decide⟩
  have h1 : sendFriendRequest ⟨[], []⟩ 2 1 = .ok ⟨[], [(2, 1)]⟩ := by decide
  have h2 : respondToFriendRequest ⟨[], [(2, 1)]⟩ 1 2 true = .ok exFriendState := by
    with_unfolding_all decide
  exact FriendReachable.respond (FriendReachable.send FriendReachable.init h1) h2

/-- If the supplied amount-update list contains an entry without an id whose
`amountPaid` or `amountToPay` is absent or zero (both falsy to the source's
`!value` check), the amount-update loop always fails, whatever the state. -/
theorem processAmountUpdates_new_zero_errors
    (userId tid : Nat) (memHdr : TxnHeader) (us : List EditTransactionAmount)
    (u : EditTransactionAmount) (hU : u ∈ us) (hId : u.id = none)
    (hZero : u.amountPaid.getD 0 = 0 ∨ u.amountToPay.getD 0 = 0) :
    ∀ (db : DB) (mem : List AmountRow),
      ∃ err, processAmountUpdates db userId tid memHdr us mem = .error err := by
  induction us with
  | nil => cases hU
  | cons v rest ih =>
    intro db mem
    rcases List.mem_cons.mp hU with rfl | hMem
    · simp only [processAmountUpdates, hId]
      split
      · exact ⟨_, rfl⟩
      · split
        · exact ⟨_, rfl⟩
        · split
          · exact ⟨_, rfl⟩
          · split
            · exact ⟨_, rfl⟩
            · rcases hZero with hz | hz
              · rw [if_pos (by simp [hz])]
                exact ⟨_, rfl⟩
              · split
                · exact ⟨_, rfl⟩
                · rw [if_pos (by simp [hz])]
                  exact ⟨_, rfl⟩
    · have ihm := ih hMem
      simp only [processAmountUpdates]
      repeat' first
        | exact ⟨_, rfl⟩
        | apply ihm
        | split

/-- C10: an update whose amounts list contains an entry without an id whose
`amountPaid` or `amountToPay` is missing or zero always fails, while create
accepts zero-valued rows and patching an existing row to zero via update is
accepted (because the truthiness check `!value` rejects `0` on the new-row
path only). -/
theorem c10_new_row_zero_amounts_rejected
    (db : DB) (userId tid : Nat) (e : EditTransaction)
    (us : List EditTransactionAmount) (u : EditTransactionAmount)
    (hAmts : e.amounts = some us) (hU : u ∈ us) (hId : u.id = none)
    (hZero : u.amountPaid.getD 0 = 0 ∨ u.amountToPay.getD 0 = 0) :
    (updateTransaction db userId tid e).isOk = false ∧
    (createTransaction exC10Db 3 1 exC10CreateReq).isOk = true ∧
    (updateTransaction exC10Db 1 10 exC10PatchEdit).isOk = true := by
  refine ⟨?_, by with_unfolding_all decide, by with_unfolding_all decide⟩
  unfold updateTransaction
  split
  · rfl
  · split
    · rfl
    · rename_i res txn heq
      rw [hAmts]
      simp only []
      obtain ⟨err, hErr⟩ := processAmountUpdates_new_zero_errors userId tid txn.header us u
        hU hId hZero
        (List.foldl (fun d r => deleteAmountRowById d r.id)
          (if hasHeaderUpdates e = true then applyHeaderUpdates db tid e else db)
          (List.filter (fun r => !us.any fun u => u.id == some r.id) txn.amounts))
        (List.filter (fun r => us.any fun u => u.id == some r.id) txn.amounts)
      rw [hErr]
      rfl

/-- C10 witness: inserting a new row with `amountPaid = 0` through update on
the example state fails. -/
theorem c10_new_row_zero_amounts_rejected_witness :
    exC10BadEdit.amounts = some exC10BadList ∧
    exC10BadEntry ∈ exC10BadList ∧
    exC10BadEntry.id = none ∧
    exC10BadEntry.amountPaid.getD 0 = 0 ∧
    (updateTransaction exC10Db 1 10 exC10BadEdit).isOk = false :=
  ⟨rfl, by with_unfolding_all decide, rfl, by with_unfolding_all decide,
   (c10_new_row_zero_amounts_rejected exC10Db 1 10 exC10BadEdit exC10BadList exC10BadEntry rfl
      (by with_unfolding_all decide) rfl (Or.inl (by with_unfolding_all decide))).1⟩

/-- C7 counterexample: by the claim's reading, transaction 20 matches the
query of user 1 filtered on account 2 (user 1 owns a row of it, and it has a
row pointing at account 2).  The code conjoins `ta.AccountId = @accountId`
with `a.UserId = @userId` on the same joined row, so the query returns no
transactions and `total = 0`. -/
theorem c7_account_filter_counterexample :
    claimMatchesC7 exC7Db 1 exC7Filters exC7Txn = true ∧
    exC7Txn ∈ exC7Db.transactions ∧
    getUserTransactions exC7Db 1 exC7Filters =
      .ok { page := 1, limit := 20, total := 0, transactions := [] } := by
  with_unfolding_all decide

/-- Pointwise-equal predicates give equal `List.any`. -/
theorem listAnyExt {α : Type} (l : List α) (p q : α → Bool)
    (h : ∀ x ∈ l, p x = q x) : l.any p = l.any q := by
  induction l with
  | nil => rfl
  | cons a rest ih =>
    simp only [List.any_cons, h a (List.mem_cons_self a rest),
      ih fun x hx => h x (List.mem_cons_of_mem a hx)]

/-- `insertDesc` produces a permutation of consing the element. -/
theorem insertDesc_perm (t : TxnHeader) (l : List TxnHeader) :
    List.Perm (insertDesc t l) (t :: l) := by
  induction l with
  | nil => exact List.Perm.refl _
  | cons a rest ih =>
    simp only [insertDesc]
    split
    · exact List.Perm.refl _
    · exact (List.Perm.cons a ih).trans (List.Perm.swap t a rest)

/-- The insertion sort permutes its input. -/
theorem sortByCreatedOnDesc_perm (l : List TxnHeader) :
    List.Perm (sortByCreatedOnDesc l) l := by
  induction l with
  | nil => exact List.Perm.refl _
  | cons a rest ih => exact (insertDesc_perm a _).trans (List.Perm.cons a ih)

/-- Inserting into a descending list keeps it descending. -/
theorem insertDesc_pairwise (t : TxnHeader) (l : List TxnHeader)
    (h : l.Pairwise descOn) : (insertDesc t l).Pairwise descOn := by
  induction l with
  | nil => simp [insertDesc]
  | cons a rest ih =>
    rcases List.pairwise_cons.mp h with ⟨ha, hrest⟩
    simp only [insertDesc]
    split
    · rename_i hlt
      refine List.pairwise_cons.mpr ⟨?_, h⟩
      intro x hx
      rcases List.mem_cons.mp hx with rfl | hx'
      · exact le_of_lt hlt
      · exact le_trans (ha x hx') (le_of_lt hlt)
    · rename_i hnlt
      refine List.pairwise_cons.mpr ⟨?_, ih hrest⟩
      intro x hx
      rcases List.mem_cons.mp ((insertDesc_perm t rest).mem_iff.mp hx) with rfl | hx'
      · exact le_of_not_lt hnlt
      · exact ha x hx'

/-- The insertion sort output is descending by `createdOn`. -/
theorem sortByCreatedOnDesc_pairwise (l : List TxnHeader) :
    (sortByCreatedOnDesc l).Pairwise descOn := by
  induction l with
  | nil => exact List.Pairwise.nil
  | cons a rest ih => exact insertDesc_pairwise a _ ih

/-- For a duplicate-free tag list, the `COUNT(DISTINCT Tag) = @tagCount`
subquery condition is exactly "the transaction carries every listed tag". -/
theorem tagFilterOk_eq_all (db : DB) (tags : List String) (tid : Nat) (hT : tags.Nodup) :
    tagFilterOk db tags tid = tags.all fun g => (tagsOfTxn db tid).contains g := by
  rw [Bool.eq_iff_iff]
  have hSnodup : ((tagsOfTxn db tid).filter fun g => tags.contains g).dedup.Nodup :=
    List.nodup_dedup _
  have hSsub : ((tagsOfTxn db tid).filter fun g => tags.contains g).dedup ⊆ tags := by
    intro x hx
    have hf := List.mem_filter.mp (List.mem_dedup.mp hx)
    simpa using hf.2
  have hsub := hSnodup.subperm hSsub
  constructor
  · intro hLen
    have hLen' : ((tagsOfTxn db tid).filter fun g => tags.contains g).dedup.length =
        tags.length := by simpa [tagFilterOk] using hLen
    have hperm := hsub.perm_of_length_le (le_of_eq hLen'.symm)
    simp only [List.all_eq_true]
    intro g hg
    have hgS := hperm.mem_iff.mpr hg
    have hf := List.mem_filter.mp (List.mem_dedup.mp hgS)
    simpa using hf.1
  · intro hAll
    simp only [List.all_eq_true] at hAll
    have htags_sub : tags ⊆ ((tagsOfTxn db tid).filter fun g => tags.contains g).dedup := by
      intro g hg
      have hgc : g ∈ tagsOfTxn db tid := by simpa using hAll g hg
      exact List.mem_dedup.mpr (List.mem_filter.mpr ⟨hgc, by simpa using hg⟩)
    have hlen2 := (hT.subperm htags_sub).length_le
    have : ((tagsOfTxn db tid).filter fun g => tags.contains g).dedup.length = tags.length :=
      le_antisymm hsub.length_le hlen2
    simpa [tagFilterOk] using this

/-- Unconditionally, the tag subquery condition means: the listed tags are
pairwise distinct and the transaction carries every one of them.  For a list
with a repeated tag the distinct count of matches stays below the list's
length, so the condition is false however the transaction is tagged. -/
theorem tagFilterOk_eq_nodup_and_all (db : DB) (tags : List String) (tid : Nat) :
    tagFilterOk db tags tid =
      (decide tags.Nodup && tags.all fun g => (tagsOfTxn db tid).contains g) := by
  by_cases hN : tags.Nodup
  · rw [tagFilterOk_eq_all db tags tid hN]
    simp [hN]
  · have hdec : decide tags.Nodup = false := by simp [hN]
    rw [hdec, Bool.false_and]
    have hSnodup : ((tagsOfTxn db tid).filter fun g => tags.contains g).dedup.Nodup :=
      List.nodup_dedup _
    have hSsub : ((tagsOfTxn db tid).filter fun g => tags.contains g).dedup ⊆ tags.dedup := by
      intro x hx
      have hf := List.mem_filter.mp (List.mem_dedup.mp hx)
      exact List.mem_dedup.mpr (by simpa using hf.2)
    have h1 : ((tagsOfTxn db tid).filter fun g => tags.contains g).dedup.length ≤
        tags.dedup.length := (hSnodup.subperm hSsub).length_le
    have h2 : tags.dedup.length < tags.length := by
      rcases lt_or_eq_of_le (List.Sublist.length_le (List.dedup_sublist tags)) with h | h
      · exact h
      · exact absurd (((List.dedup_sublist tags).eq_of_length h) ▸ List.nodup_dedup tags) hN
    have hne : ((tagsOfTxn db tid).filter fun g => tags.contains g).dedup.length ≠
        tags.length := Nat.ne_of_lt (lt_of_le_of_lt h1 h2)
    simpa [tagFilterOk] using hne

/-- The `WHERE` clause of the query coincides with the amended claim's
predicate, for every supplied tag list. -/
theorem txnMatchesQuery_eq_spec (db : DB) (userId : Nat) (f : TransactionFilters)
    (t : TxnHeader) :
    txnMatchesQuery db userId f t = specMatchesAmended db userId f t := by
  unfold txnMatchesQuery specMatchesAmended
  have hrow : (db.amounts.any fun r =>
      r.transactionId == t.id &&
        (match r.accountId with
         | some accId =>
           (db.lookupAccount accId).any (fun a => a.userId == userId) &&
             (match f.accountId with | some want => accId == want | none => true)
         | none => false)) =
      (match f.accountId with
       | some want => db.amounts.any fun r =>
           (r.transactionId == t.id && rowOwnedBy db userId r) && r.accountId == some want
       | none => db.amounts.any fun r => r.transactionId == t.id && rowOwnedBy db userId r) := by
    cases f.accountId with
    | none =>
      apply listAnyExt
      intro r hr
      cases hacc : r.accountId <;> simp [rowOwnedBy, hacc]
    | some want =>
      apply listAnyExt
      intro r hr
      cases hacc : r.accountId <;> simp [rowOwnedBy, hacc, Bool.and_assoc]
  have htags : (f.tags.isEmpty || tagFilterOk db f.tags t.id) =
      (decide f.tags.Nodup && f.tags.all fun g => (tagsOfTxn db t.id).contains g) := by
    cases hE : f.tags with
    | nil => simp
    | cons g rest =>
      rw [tagFilterOk_eq_nodup_and_all]
      simp
  rw [hrow, htags]

/-- With duplicate-free header ids, finding a stored header by its own id
returns that header. -/
theorem find?_id_of_nodup (l : List TxnHeader) (t : TxnHeader)
    (hIds : (l.map fun x => x.id).Nodup) (hMem : t ∈ l) :
    l.find? (fun x => x.id == t.id) = some t := by
  induction l with
  | nil => cases hMem
  | cons a rest ih =>
    simp only [List.map_cons, List.nodup_cons] at hIds
    rcases List.mem_cons.mp hMem with rfl | hMem'
    · simp [List.find?_cons]
    · have hne : (a.id == t.id) = false := by
        rcases hEq : a.id == t.id with _ | _
        · rfl
        · exact absurd (List.mem_map.mpr ⟨t, hMem', (beq_iff_eq.mp hEq).symm⟩) hIds.1
      simp only [List.find?_cons, hne]
      exact ih hIds.2 hMem'

/-- A transaction matching the query predicate is accessible to the querying
user (one of its rows is owned by an account of that user). -/
theorem access_of_matches (db : DB) (userId : Nat) (f : TransactionFilters)
    (t : TxnHeader) (h : txnMatchesQuery db userId f t = true) :
    hasAccessToTransaction db userId t.id = true := by
  unfold txnMatchesQuery at h
  simp only [Bool.and_eq_true] at h
  have h1 := h.1.1.1.1
  rw [List.any_eq_true] at h1
  obtain ⟨r, hrMem, hrProp⟩ := h1
  unfold hasAccessToTransaction
  rw [List.any_eq_true]
  refine ⟨r, hrMem, ?_⟩
  simp only [Bool.and_eq_true] at hrProp
  rw [Bool.and_eq_true]
  refine ⟨hrProp.1, ?_⟩
  have h2 := hrProp.2
  cases hacc : r.accountId with
  | none => rw [hacc] at h2; simp at h2
  | some accId =>
    rw [hacc] at h2
    simp only [Bool.and_eq_true] at h2
    simp only []
    exact h2.1

/-- Re-reading a list of headers through `getTransactionById` and projecting
the headers back gives the original list, when each lookup succeeds. -/
theorem filterMap_headers (db : DB) (userId : Nat) (L : List TxnHeader)
    (h : ∀ t ∈ L, ∃ am tg, getTransactionById db userId t.id =
      .ok { header := t, amounts := am, tags := tg }) :
    (L.filterMap fun t => (getTransactionById db userId t.id).toOption).map
      (fun it => it.header) = L := by
  induction L with
  | nil => rfl
  | cons a rest ih =>
    obtain ⟨am, tg, hGet⟩ := h a (List.mem_cons_self a rest)
    have hOpt : (getTransactionById db userId a.id).toOption =
        some { header := a, amounts := am, tags := tg } := by
      rw [hGet]; rfl
    simp only [List.filterMap_cons, hOpt, List.map_cons]
    rw [ih fun t ht => h t (List.mem_cons_of_mem a ht)]

/-- C7 amended: with valid filters and a well-formed header table (distinct
positive ids), the query returns page defaults `page=1`/`limit=20`, a `total`
counting every transaction matching the amended predicate (which includes
the distinct-tags condition of the tag filter), the page slice of the
matching transactions sorted by `createdOn` descending, and a result list
that is itself descending. -/
theorem c7_query_matches_amended_spec
    (db : DB) (userId : Nat) (f : TransactionFilters)
    (hShape : filtersShapeOk userId f = true)
    (hNodupIds : (db.transactions.map fun x => x.id).Nodup)
    (hPos : (db.transactions.all fun x => decide (0 < x.id)) = true) :
    ∃ res, getUserTransactions db userId f = .ok res ∧
      res.page = f.page.getD 1 ∧ res.limit = f.limit.getD 20 ∧
      res.total = (db.transactions.filter (specMatchesAmended db userId f)).length ∧
      (res.transactions.map fun it => it.header) =
        (((sortByCreatedOnDesc db.transactions).filter
            (specMatchesAmended db userId f)).drop
          ((f.page.getD 1 - 1) * f.limit.getD 20)).take (f.limit.getD 20) ∧
      res.transactions.Pairwise (fun x y => descOn x.header y.header) := by
  have hFiltEq : (sortByCreatedOnDesc db.transactions).filter (txnMatchesQuery db userId f) =
      (sortByCreatedOnDesc db.transactions).filter (specMatchesAmended db userId f) :=
    List.filter_congr fun x _ => txnMatchesQuery_eq_spec db userId f x
  have hUserPos : (0 < userId : Bool) = true := by
    simp only [filtersShapeOk, Bool.and_eq_true] at hShape
    exact hShape.1.1.1.1.1
  -- every header on the returned page is re-read successfully as itself
  have hGetOk : ∀ t ∈ (((sortByCreatedOnDesc db.transactions).filter
        (specMatchesAmended db userId f)).drop
      ((f.page.getD 1 - 1) * f.limit.getD 20)).take (f.limit.getD 20),
      ∃ am tg, getTransactionById db userId t.id =
        .ok { header := t, amounts := am, tags := tg } := by
    intro t ht
    have htMatch : t ∈ (sortByCreatedOnDesc db.transactions).filter
        (specMatchesAmended db userId f) :=
      List.mem_of_mem_drop (List.mem_of_mem_take ht)
    have htF := List.mem_filter.mp htMatch
    have htMem : t ∈ db.transactions :=
      (sortByCreatedOnDesc_perm db.transactions).mem_iff.mp htF.1
    have htCode : txnMatchesQuery db userId f t = true := by
      rw [txnMatchesQuery_eq_spec db userId f t]
      exact htF.2
    have hAccess := access_of_matches db userId f t htCode
    have hLook : db.lookupTxn t.id = some t :=
      find?_id_of_nodup db.transactions t hNodupIds htMem
    have hPosT : decide (0 < t.id) = true := by
      rw [List.all_eq_true] at hPos
      exact hPos t htMem
    refine ⟨db.amounts.filter (fun r => r.transactionId == t.id),
      db.tags.filter (fun g => g.transactionId == t.id), ?_⟩
    simp only [getTransactionById, hUserPos, hPosT, hAccess, hLook, Bool.and_self,
      Bool.not_true, Bool.false_eq_true, if_false]
  have hMapEq : List.map (fun it => it.header)
      (List.filterMap (fun t => (getTransactionById db userId t.id).toOption)
        ((((sortByCreatedOnDesc db.transactions).filter
            (txnMatchesQuery db userId f)).drop
          ((f.page.getD 1 - 1) * f.limit.getD 20)).take (f.limit.getD 20))) =
      (((sortByCreatedOnDesc db.transactions).filter
          (specMatchesAmended db userId f)).drop
        ((f.page.getD 1 - 1) * f.limit.getD 20)).take (f.limit.getD 20) := by
    rw [hFiltEq]
    exact filterMap_headers db userId _ hGetOk
  have hRun : getUserTransactions db userId f = .ok
      { page := f.page.getD 1, limit := f.limit.getD 20,
        total := ((sortByCreatedOnDesc db.transactions).filter
          (txnMatchesQuery db userId f)).length,
        transactions := ((((sortByCreatedOnDesc db.transactions).filter
            (txnMatchesQuery db userId f)).drop
          ((f.page.getD 1 - 1) * f.limit.getD 20)).take
            (f.limit.getD 20)).filterMap fun t => (getTransactionById db userId t.id).toOption } := by
    simp only [getUserTransactions, hShape, Bool.not_true, Bool.false_eq_true, if_false]
  refine ⟨_, hRun, rfl, rfl, ?_, hMapEq, ?_⟩
  · show ((sortByCreatedOnDesc db.transactions).filter (txnMatchesQuery db userId f)).length = _
    rw [hFiltEq]
    exact ((sortByCreatedOnDesc_perm db.transactions).filter
      (specMatchesAmended db userId f)).length_eq
  · have hPW : ((((sortByCreatedOnDesc db.transactions).filter
        (specMatchesAmended db userId f)).drop
      ((f.page.getD 1 - 1) * f.limit.getD 20)).take (f.limit.getD 20)).Pairwise descOn :=
      List.Pairwise.sublist ((List.take_sublist _ _).trans (List.drop_sublist _ _))
        ((sortByCreatedOnDesc_pairwise db.transactions).filter _)
    rw [← hMapEq] at hPW
    exact List.pairwise_map.mp hPW

/-- C7 witness: the amended query description instantiated on the two-account
example state, filtering on the friend's account 2; and a second instantiation
with the duplicated tag list ["food", "food"] on a state whose transaction
carries "food", where the amended predicate (hence the returned total) drops
to zero. -/
theorem c7_query_matches_amended_spec_witness :
    (filtersShapeOk 1 exC7Filters = true ∧
     (exC7Db.transactions.map fun x => x.id).Nodup ∧
     (exC7Db.transactions.all fun x => decide (0 < x.id)) = true ∧
     (∃ res, getUserTransactions exC7Db 1 exC7Filters = .ok res ∧
       res.page = exC7Filters.page.getD 1 ∧ res.limit = exC7Filters.limit.getD 20 ∧
       res.total = (exC7Db.transactions.filter (specMatchesAmended exC7Db 1 exC7Filters)).length ∧
       (res.transactions.map fun it => it.header) =
         (((sortByCreatedOnDesc exC7Db.transactions).filter
             (specMatchesAmended exC7Db 1 exC7Filters)).drop
           ((exC7Filters.page.getD 1 - 1) * exC7Filters.limit.getD 20)).take
             (exC7Filters.limit.getD 20) ∧
       res.transactions.Pairwise fun x y => descOn x.header y.header)) ∧
    ((tagsOfTxn exC7TagDb 20).contains "food" = true ∧
     (exC7TagDb.transactions.filter
       (specMatchesAmended exC7TagDb 1 exC7DupTagFilters)).length = 0 ∧
     ∃ res, getUserTransactions exC7TagDb 1 exC7DupTagFilters = .ok res ∧
       res.total = 0) := by
  refine ⟨⟨by with_unfolding_all decide, by with_unfolding_all decide,
    by with_unfolding_all decide,
    c7_query_matches_amended_spec exC7Db 1 exC7Filters (by with_unfolding_all decide)
      (by with_unfolding_all decide) (by with_unfolding_all decide)⟩,
    by with_unfolding_all decide, by with_unfolding_all decide, ?_⟩
  obtain ⟨res, hRun, -, -, hTot, -, -⟩ :=
    c7_query_matches_amended_spec exC7TagDb 1 exC7DupTagFilters
      (by with_unfolding_all decide) (by with_unfolding_all decide)
      (by with_unfolding_all decide)
  exact ⟨res, hRun, hTot.trans (by with_unfolding_all decide)⟩

end FASTMoney
